import Mathlib

/-!
Verification development for the tempreg serial-bus polling program
(src/main.go).  Bytes are modelled as natural numbers (values < 256 where
relevant), Go strings as lists of byte values, fallible functions as
`Except String` results, and the global per-device state mutated by the
retry loops as an explicit record threaded through the loop.
-/

namespace Tempreg

/-- Constant MAXNUMADR from the const block of src/main.go: size of the
per-device global arrays. -/
def MAXNUMADR : Nat := 32

/-- Constant ACK (positive acknowledge status byte). -/
def ACK : Nat := 6

/-- Constant NAK (negative acknowledge status byte,  0x15 = 21). -/
def NAK : Nat := 21

/-- Constant ETX (end-of-text marker byte 0x03). -/
def ETX : Nat := 3

/-- Constant TXBUFFLEN: transmit buffer capacity. -/
def TXBUFFLEN : Nat := 2200

/-- Constant RXBUFFLEN: receive buffer capacity. -/
def RXBUFFLEN : Nat := 255

/-- Configuration variable maxRetrys (default 25) from src/main.go. -/
def maxRetrys : Nat := 25

/-- Block-check character: XOR of a list of byte values, accumulated left to
right starting from 0, as the `bcc ^= ...` loops in src/main.go do. -/
def bccOf (l : List Nat) : Nat := l.foldl Nat.xor 0

/-- SerialPort.ReadStrPort (src/main.go lines 403-435), specialised to the
case where the port read itself delivered `raw` (port-level read errors are
modelled separately in `Attempt`).  The Go code:
* fails with "no data read" when `iIn <= 0` (zero bytes),
* computes the XOR of all bytes but the last and compares it with the last
  byte, failing with "BCC verification failed" on mismatch,
* overwrites the checksum byte with 0x00 and returns `result[0]` together
  with the string literal `""` — the buffer contents are never returned, so
  the payload component is always the empty byte string. -/
def ReadStrPort (raw : List Nat) : Except String (Nat × List Nat) :=
  if raw.length = 0 then Except.error "no data read"
  else if bccOf raw.dropLast = raw.getLastD 0 then Except.ok (raw.headD 0, [])
  else Except.error "BCC verification failed"

/-- Go unicode.IsSpace restricted to the one-byte runes 0..255 that a byte of
the receive buffer can produce: '\t' '\n' '\v' '\f' '\r' ' ', NEL (0x85) and
NBSP (0xA0). -/
def goIsSpace (b : Nat) : Bool :=
  b == 9 || b == 10 || b == 11 || b == 12 || b == 13 || b == 32 || b == 0x85 || b == 0xA0

/-- Go unicode.IsPrint restricted to the one-byte runes 0..255: the printable
ASCII range 0x20-0x7E and the Latin-1 range 0xA1-0xFF minus the soft hyphen
0xAD. -/
def goIsPrint (b : Nat) : Bool :=
  (32 ≤ b && b ≤ 126) || (0xA1 ≤ b && b ≤ 0xFF && b != 0xAD)

/-- Filter used by getValue (src/main.go lines 534-543): keep printable,
whitespace and NUL bytes. -/
def keepByte (b : Nat) : Bool := goIsPrint b || goIsSpace b || b == 0

/-- Post-processing getValue applies to the payload returned by ReadStrPort
(src/main.go lines 525-545): truncate at the first ETX (bytes.IndexByte plus
slice), then filter to printable/whitespace/NUL bytes.  The filter loop's own
ETX break is unreachable after the truncation. -/
def getValuePost (buf : List Nat) : List Nat :=
  ((buf.takeWhile fun b => b ≠ ETX).filter keepByte)

/-- Composition the spec calls decodeResponse: ReadStrPort followed by
getValue's post-processing of the payload. -/
def decodeResponse (raw : List Nat) : Except String (Nat × List Nat) :=
  match ReadStrPort raw with
  | Except.error e => Except.error e
  | Except.ok (b, buf) => Except.ok (b, getValuePost buf)

/-- SerialPort.WriteStrPort (src/main.go lines 349-401) as the frame it
writes.  The Go code keeps a cursor `a`, starting at 1 after the address
byte `adr + 0x80` (byte arithmetic, hence mod 256); the in-loop bound check
`a >= TXBUFFLEN-2` trips for some payload index i (a = 1 + i, i ≤ len-1)
exactly when TXBUFFLEN - 2 ≤ len; the later ETX check `a >= TXBUFFLEN-1`
(a = 1 + len) and BCC check `a >= TXBUFFLEN` (a = 2 + len) are kept for
faithfulness though the first check subsumes them.  The checksum XORs every
payload byte and the ETX byte; the address byte is excluded (its `bcc ^=`
line is commented out in the source). -/
def WriteStrPort (chars : List Nat) (adr : Nat) : Except String (List Nat) :=
  if TXBUFFLEN - 2 ≤ chars.length then Except.error "message exceeds buffer size"
  else if TXBUFFLEN - 1 ≤ 1 + chars.length then Except.error "message too long for ETX"
  else if TXBUFFLEN ≤ 2 + chars.length then Except.error "message too long for BCC"
  else Except.ok ((adr + 0x80) % 256 :: (chars ++ [ETX, bccOf (chars ++ [ETX])]))

/-- Per-device state touched by getSerialNumber/getMeasurement/getValue for
one scan slot (src/main.go global arrays, projected to the single slot
`adrCounter` / address `scanAddress[adrCounter]` the loops work on):
serNoStr, valueStr, timestamp, retryCnt, and the counters msgSent,
msgReceived (indexed by address byte in the source) and msgNAK (indexed by
slot).  The raw-index aliasing of msgSent/msgReceived is treated separately
by `getValueCounters` below. -/
structure DevState where
  serNo : List Nat
  value : List Nat
  timestamp : Option Nat
  retryCnt : Nat
  sent : Nat
  received : Nat
  nak : Nat
deriving DecidableEq

/-- Which string field a getValue call writes through its resultStr
pointer: serNoStr[adrCounter] or valueStr[adrCounter]. -/
inductive Field where
  | serNo
  | value
deriving DecidableEq

/-- Assignment through the resultStr pointer. -/
def setField (s : DevState) : Field → List Nat → DevState
  | Field.serNo, v => { s with serNo := v }
  | Field.value, v => { s with value := v }

/-- One transport interaction for one getValue call, as the environment
resolves it: the WriteStrPort call fails, or the port-level Read inside
ReadStrPort fails (timeout / serial error), or the read delivers the given
bytes. -/
inductive Attempt where
  | writeFail (msg : String)
  | readFail (msg : String)
  | bytes (raw : List Nat)

/-- getValue (src/main.go lines 498-547) acting on the device state: clear
the result string, write the request (on failure return status 0 and the
error), increment the sent counter, read and decode the response (on failure
return status 0 and the error), increment the received counter, store the
post-processed payload, and return the first response byte as the status. -/
def getValue (s : DevState) (f : Field) (att : Attempt) :
    (Int × Option String) × DevState :=
  let s0 := setField s f []
  match att with
  | Attempt.writeFail msg => ((0, some msg), s0)
  | Attempt.readFail msg => ((0, some msg), { s0 with sent := s0.sent + 1 })
  | Attempt.bytes raw =>
    let s1 := { s0 with sent := s0.sent + 1 }
    match ReadStrPort raw with
    | Except.error e => ((0, some e), s1)
    | Except.ok (readChar, buf) =>
      let s2 := { s1 with received := s1.received + 1 }
      ((Int.ofNat readChar, none), setField s2 f (getValuePost buf))

/-- The two command kinds issued per device: the serial-number query
("SN ?") and the measurement query ("MEA CH 1 ?"). -/
inductive Cmd where
  | sn
  | mea

/-- Result field each command kind writes. -/
def fieldOf : Cmd → Field
  | Cmd.sn => Field.serNo
  | Cmd.mea => Field.value

/-- Success predicate tested by each retry loop on the getValue result:
getSerialNumber line 453 `err == nil && portStatus >= 0`; getMeasurement
line 483 `err == nil && portStatus == ACK`. -/
def accept : Cmd → Option String → Int → Bool
  | Cmd.sn, err, st => err.isNone && decide (0 ≤ st)
  | Cmd.mea, err, st => err.isNone && decide (st = 6)

/-- Extra state update performed inside the success branch before the break:
getMeasurement stamps timestamp[adrCounter] = time.Now() (line 488);
getSerialNumber only logs. -/
def onSuccess (c : Cmd) (s : DevState) (now : Nat) : DevState :=
  match c with
  | Cmd.sn => s
  | Cmd.mea => { s with timestamp := some now }

/-- The shared retry loop shape of getSerialNumber (lines 451-468) and
getMeasurement (lines 481-494):
`for ; retryCnt[adrCounter] < maxRetrys; retryCnt[adrCounter]++`.
`oracle k` resolves the k-th getValue call of this loop, `err` is the Go
`err` variable (nil when the body has not run), `att` counts getValue calls
made so far.  On success the loop breaks without the post-increment; the
`portStatus == NAK` branch bumps the nak counter before continuing; any
other outcome falls through to the next iteration.  `fuel` bounds the
recursion; with fuel ≥ maxRetrys - retryCnt it never runs out before the
loop guard stops the loop. -/
def runLoop (c : Cmd) (oracle : Nat → Attempt) (now : Nat) :
    Nat → Nat → Option String → DevState → Nat → Option String × DevState × Nat
  | 0, _, err, s, att => (err, s, att)
  | fuel + 1, k, err, s, att =>
    if s.retryCnt < maxRetrys then
      let r := getValue s (fieldOf c) (oracle k)
      let st := r.1.1
      let e := r.1.2
      let s1 := r.2
      if accept c e st then (e, onSuccess c s1 now, att + 1)
      else if st = 21 then
        runLoop c oracle now fuel (k + 1) e
          { s1 with nak := s1.nak + 1, retryCnt := s1.retryCnt + 1 } (att + 1)
      else
        runLoop c oracle now fuel (k + 1) e
          { s1 with retryCnt := s1.retryCnt + 1 } (att + 1)
    else (err, s, att)

/-- getSerialNumber (src/main.go lines 444-470): clear serNoStr[adrCounter],
reset retryCnt[adrCounter] to 0, then run the retry loop for the SN command.
Returns the final err together with the final state and the number of
getValue calls made. -/
def getSerialNumber (oracle : Nat → Attempt) (s : DevState) :
    Option String × DevState × Nat :=
  runLoop Cmd.sn oracle 0 maxRetrys 0 none { s with serNo := [], retryCnt := 0 } 0

/-- getMeasurement (src/main.go lines 472-496): a dummy ReadStrPort whose
result is discarded (no state effect), then the retry loop for the
measurement command.  retryCnt[adrCounter] is NOT reset: the loop resumes
from whatever value getSerialNumber left in it. -/
def getMeasurement (oracle : Nat → Attempt) (now : Nat) (s : DevState) :
    Option String × DevState × Nat :=
  runLoop Cmd.mea oracle now maxRetrys 0 none s 0

/-- Loop condition of the main scan loop (src/main.go line 122):
`for numScans == 0 || numScansMain > 0`. -/
def mainLoopCond (numScans numScansMain : Int) : Bool :=
  numScans == 0 || decide (0 < numScansMain)

/-- Effect of one counter-changing pass of the loop body on numScansMain
(lines 130-132): `if numScansMain > 0 { numScansMain-- }`.  The
minimum-delay branch (line 125-128) continues without touching the counter
and is not modelled; the openPort-failure continue happens after the
decrement, so it changes the counter exactly like a completed scan. -/
def scanDecrement (m : Int) : Int := if 0 < m then m - 1 else m

/-- The main loop's scan-count dynamics: iterate the loop up to `fuel`
counter-changing passes.  `some m` means the loop condition became false and
the loop exited (main returns, the process terminates); `none` means the
loop is still running after `fuel` passes. -/
def runScheduler (numScans : Int) : Nat → Int → Option Int
  | 0, _ => none
  | fuel + 1, m =>
    if mainLoopCond numScans m then runScheduler numScans fuel (scanDecrement m)
    else some m

/-- The three per-address counter arrays (src/main.go lines 73-75), each of
length MAXNUMADR = 32. -/
structure Counters where
  msgSent : List Int
  msgReceived : List Int
  msgNAK : List Int
deriving DecidableEq

/-- A Go array increment `arr[i]++` on an array modelled as a list: `none`
models the runtime panic (index out of range) when i is past the end. -/
def incAt (l : List Int) (i : Nat) : Option (List Int) :=
  if i < l.length then some (l.set i (l.getD i 0 + 1)) else none

/-- Counter side effects of one getValue call (src/main.go lines 512 and
523), at the array level: `msgSent[adr]++` after a successful write and
`msgReceived[adr]++` after a successful decode — both indexed by the raw
bus-address byte `adr`, not by the scan-slot position. -/
def getValueCounters (cs : Counters) (adr : Nat) (att : Attempt) :
    Option Counters :=
  match att with
  | Attempt.writeFail _ => some cs
  | Attempt.readFail _ =>
    (incAt cs.msgSent adr).map fun ms => { cs with msgSent := ms }
  | Attempt.bytes raw =>
    match incAt cs.msgSent adr with
    | none => none
    | some ms =>
      match ReadStrPort raw with
      | Except.error _ => some { cs with msgSent := ms }
      | Except.ok _ =>
        match incAt cs.msgReceived adr with
        | none => none
        | some mr => some { cs with msgSent := ms, msgReceived := mr }

/-- Nak-counter side effect of the retry loops (src/main.go lines 459 and
491) at the array level: `msgNAK[adrCounter]++`, indexed by the scan-slot
cursor adrCounter. -/
def nakIncrement (cs : Counters) (adrCounter : Nat) : Option Counters :=
  (incAt cs.msgNAK adrCounter).map fun mn => { cs with msgNAK := mn }

/-- Leading-space trim: after the digits/comma/space cleaning only the space
character can surround a token, so strings.TrimSpace reduces to dropping
spaces at both ends. -/
def trimSpaces (cs : List Char) : List Char :=
  ((cs.dropWhile fun c => c = ' ').reverse.dropWhile fun c => c = ' ').reverse

/-- strconv.ParseUint(part, 10, 8): succeeds on a non-empty all-digit string
whose value fits in 8 bits (0..255). -/
def parseUint8 (cs : List Char) : Option Nat :=
  if cs ≠ [] ∧ cs.all Char.isDigit then
    let v := cs.foldl (fun acc c => acc * 10 + (c.toNat - 48)) 0
    if v < 256 then some v else none
  else none

/-- extractAdresses (src/main.go lines 306-329): keep only digits, commas
and spaces, split on commas, visit at most MAXNUMADR parts (the loop breaks
at index MAXNUMADR), trim each, skip empty parts, and append every value
strconv.ParseUint(..., 10, 8) accepts — any value 0..255 — to scanAddress as
a byte. -/
def extractAdresses (astr : String) : List Nat :=
  let cleaned := astr.data.filter fun c => c.isDigit || c = ',' || c = ' '
  let parts := (cleaned.splitOn ',').take MAXNUMADR
  (parts.map trimSpaces).filterMap fun p =>
    if p = [] then none else parseUint8 p

/-- Abbreviation for lemma statements: the status value a getValue call
returns for a given transport interaction (0 on any error path, otherwise
the first response byte). -/
def gvSt : Attempt → Int
  | Attempt.writeFail _ => 0
  | Attempt.readFail _ => 0
  | Attempt.bytes raw =>
    match ReadStrPort raw with
    | Except.ok p => Int.ofNat p.1
    | Except.error _ => 0

/-- Abbreviation for lemma statements: the error a getValue call returns
for a given transport interaction. -/
def gvErr : Attempt → Option String
  | Attempt.writeFail m => some m
  | Attempt.readFail m => some m
  | Attempt.bytes raw =>
    match ReadStrPort raw with
    | Except.ok _ => none
    | Except.error e => some e

/-- Abbreviation for lemma statements: how much one getValue call adds to
the sent counter (0 iff the write failed). -/
def gvDS : Attempt → Nat
  | Attempt.writeFail _ => 0
  | Attempt.readFail _ => 1
  | Attempt.bytes _ => 1

/-- Abbreviation for lemma statements: how much one getValue call adds to
the received counter (1 iff the response decoded). -/
def gvDR : Attempt → Nat
  | Attempt.writeFail _ => 0
  | Attempt.readFail _ => 0
  | Attempt.bytes raw =>
    match ReadStrPort raw with
    | Except.ok _ => 1
    | Except.error _ => 0

/-- Fresh per-device state: empty strings, no timestamp, all counters 0. -/
def initState : DevState := ⟨[], [], none, 0, 0, 0, 0⟩

/-- A device state holding an earlier reading: serial number "OLD", value
"V1", timestamp 7, some counter history. -/
def oldState : DevState := ⟨[79, 76, 68], [86, 49], some 7, 0, 3, 3, 1⟩

/-- Shortest well-formed NAK response: status byte NAK = 21, checksum 21. -/
def nakAttempt : Attempt := Attempt.bytes [21, 21]

/-- Shortest well-formed ACK response: status byte ACK = 6, checksum 6. -/
def ackAttempt : Attempt := Attempt.bytes [6, 6]

/-- Malformed response: trailing byte 2 is not the XOR (= 1) of the bytes
before it, so ReadStrPort rejects the frame. -/
def badAttempt : Attempt := Attempt.bytes [1, 2]

/-- Shortest well-formed response with an arbitrary status byte st:
the XOR of the single byte before the checksum is st itself. -/
def stAttempt (st : Nat) : Attempt := Attempt.bytes [st, st]

/-- Transport schedule delivering N-1 well-formed NAK responses followed by
well-formed ACK responses, so the N-th getValue call is the first ACK. -/
def nakThenAck (N : Nat) : Nat → Attempt :=
  fun k => if k + 1 < N then nakAttempt else ackAttempt

/-- Counter arrays in their initial state: three zeroed arrays of length
MAXNUMADR = 32, as main initialises them. -/
def csInit : Counters :=
  ⟨List.replicate MAXNUMADR 0, List.replicate MAXNUMADR 0, List.replicate MAXNUMADR 0⟩

/-- A correctly framed response embedding the command payload "SN ?"
([83, 78, 32, 63]): status byte ACK, the payload, ETX, and the trailing
checksum over everything before it. -/
def respSN : List Nat :=
  6 :: [83, 78, 32, 63] ++ [ETX] ++ [bccOf (6 :: [83, 78, 32, 63] ++ [ETX])]

/-! Helper lemmas. -/

lemma foldl_xor_pull (l : List Nat) : ∀ a m : Nat,
    List.foldl Nat.xor (a ^^^ m) l = List.foldl Nat.xor a l ^^^ m := by
  induction l with
  | nil => intro a m; rfl
  | cons x t ih =>
    intro a m
    show List.foldl Nat.xor ((a ^^^ m) ^^^ x) t = List.foldl Nat.xor (a ^^^ x) t ^^^ m
    rw [Nat.xor_assoc, Nat.xor_comm m x, ← Nat.xor_assoc, ih]

lemma foldl_xor_set (l : List Nat) : ∀ i : Nat, i < l.length → ∀ a m : Nat,
    List.foldl Nat.xor a (l.set i (l.getD i 0 ^^^ m)) = List.foldl Nat.xor a l ^^^ m := by
  induction l with
  | nil => intro i hi; simp at hi
  | cons x t ih =>
    intro i hi a m
    cases i with
    | zero =>
      show List.foldl Nat.xor (a ^^^ (x ^^^ m)) t = List.foldl Nat.xor (a ^^^ x) t ^^^ m
      rw [← Nat.xor_assoc, foldl_xor_pull]
    | succ j =>
      show List.foldl Nat.xor (a ^^^ x) (t.set j (t.getD j 0 ^^^ m)) =
        List.foldl Nat.xor (a ^^^ x) t ^^^ m
      exact ih j (by simpa using hi) (a ^^^ x) m

lemma bccOf_set (l : List Nat) (i m : Nat) (h : i < l.length) :
    bccOf (l.set i (l.getD i 0 ^^^ m)) = bccOf l ^^^ m :=
  foldl_xor_set l i h 0 m

lemma xor_ne_self {b m : Nat} (h : m ≠ 0) : b ^^^ m ≠ b := by
  intro hc
  apply h
  have h2 : b ^^^ (b ^^^ m) = b ^^^ b := congrArg (fun z => b ^^^ z) hc
  rwa [← Nat.xor_assoc, Nat.xor_self, Nat.zero_xor] at h2

lemma ReadStrPort_concat (body : List Nat) (last : Nat) :
    ReadStrPort (body ++ [last]) =
      if bccOf body = last then Except.ok ((body ++ [last]).headD 0, ([] : List Nat))
      else Except.error "BCC verification failed" := by
  unfold ReadStrPort
  simp [List.getLastD_concat]

lemma ReadStrPort_ok_payload {raw : List Nat} {b : Nat} {buf : List Nat}
    (h : ReadStrPort raw = Except.ok (b, buf)) : buf = [] := by
  unfold ReadStrPort at h
  split_ifs at h
  all_goals simp_all

@[simp] lemma setField_retryCnt (s : DevState) (f : Field) (v : List Nat) :
    (setField s f v).retryCnt = s.retryCnt := by cases f <;> rfl

@[simp] lemma setField_sent (s : DevState) (f : Field) (v : List Nat) :
    (setField s f v).sent = s.sent := by cases f <;> rfl

@[simp] lemma setField_received (s : DevState) (f : Field) (v : List Nat) :
    (setField s f v).received = s.received := by cases f <;> rfl

@[simp] lemma setField_nak (s : DevState) (f : Field) (v : List Nat) :
    (setField s f v).nak = s.nak := by cases f <;> rfl

@[simp] lemma setField_timestamp (s : DevState) (f : Field) (v : List Nat) :
    (setField s f v).timestamp = s.timestamp := by cases f <;> rfl

@[simp] lemma setField_serNo (s : DevState) (f : Field) (v : List Nat) :
    (setField s f v).serNo = if f = Field.serNo then v else s.serNo := by
  cases f <;> simp [setField]

@[simp] lemma setField_value (s : DevState) (f : Field) (v : List Nat) :
    (setField s f v).value = if f = Field.value then v else s.value := by
  cases f <;> simp [setField]

lemma getValue_eq (s : DevState) (f : Field) (a : Attempt) :
    getValue s f a = ((gvSt a, gvErr a),
      setField { s with sent := s.sent + gvDS a, received := s.received + gvDR a } f []) := by
  cases a with
  | writeFail m => cases f <;> rfl
  | readFail m => cases f <;> rfl
  | bytes raw =>
    cases hr : ReadStrPort raw with
    | error e => cases f <;> simp [getValue, gvSt, gvErr, gvDS, gvDR, hr, setField]
    | ok p =>
      obtain ⟨b, buf⟩ := p
      have hb : buf = [] := ReadStrPort_ok_payload hr
      subst hb
      cases f <;> simp [getValue, gvSt, gvErr, gvDS, gvDR, hr, setField, getValuePost]

lemma runLoop_stuck (c : Cmd) (o : Nat → Attempt) (now fuel k : Nat)
    (err : Option String) (s : DevState) (att : Nat) (h : ¬ s.retryCnt < maxRetrys) :
    runLoop c o now fuel k err s att = (err, s, att) := by
  cases fuel with
  | zero => rfl
  | succ n => simp [runLoop, h]

lemma runLoop_step (c : Cmd) (o : Nat → Attempt) (now n k : Nat)
    (err : Option String) (s : DevState) (att : Nat) (hg : s.retryCnt < maxRetrys) :
    runLoop c o now (n + 1) k err s att =
      if accept c (gvErr (o k)) (gvSt (o k)) then
        (gvErr (o k),
         onSuccess c
           (setField { s with sent := s.sent + gvDS (o k),
                              received := s.received + gvDR (o k) } (fieldOf c) []) now,
         att + 1)
      else if gvSt (o k) = 21 then
        runLoop c o now n (k + 1) (gvErr (o k))
          (setField { s with sent := s.sent + gvDS (o k),
                             received := s.received + gvDR (o k),
                             nak := s.nak + 1, retryCnt := s.retryCnt + 1 } (fieldOf c) [])
          (att + 1)
      else
        runLoop c o now n (k + 1) (gvErr (o k))
          (setField { s with sent := s.sent + gvDS (o k),
                             received := s.received + gvDR (o k),
                             retryCnt := s.retryCnt + 1 } (fieldOf c) [])
          (att + 1) := by
  cases c <;> simp [runLoop, hg, getValue_eq, setField, fieldOf, onSuccess]

lemma runLoop_att_le (c : Cmd) (o : Nat → Attempt) (now : Nat) :
    ∀ fuel k err (s : DevState) att,
      (runLoop c o now fuel k err s att).2.2 ≤ att + (maxRetrys - s.retryCnt) := by
  intro fuel
  induction fuel with
  | zero => intro k err s att; exact Nat.le_add_right _ _
  | succ n ih =>
    intro k err s att
    by_cases hg : s.retryCnt < maxRetrys
    · rw [runLoop_step c o now n k err s att hg]
      split_ifs with h1 h2
      · simpa using by omega
      · refine le_trans (ih (k + 1) (gvErr (o k))
          (setField { s with sent := s.sent + gvDS (o k),
                             received := s.received + gvDR (o k),
                             nak := s.nak + 1, retryCnt := s.retryCnt + 1 }
            (fieldOf c) []) (att + 1)) ?_
        simp only [setField_retryCnt]
        omega
      · refine le_trans (ih (k + 1) (gvErr (o k))
          (setField { s with sent := s.sent + gvDS (o k),
                             received := s.received + gvDR (o k),
                             retryCnt := s.retryCnt + 1 }
            (fieldOf c) []) (att + 1)) ?_
        simp only [setField_retryCnt]
        omega
    · rw [runLoop_stuck c o now _ _ _ _ _ hg]
      exact Nat.le_add_right _ _

lemma runLoop_reject_const (c : Cmd) (a : Attempt) (now : Nat)
    (hrej : accept c (gvErr a) (gvSt a) = false) :
    ∀ (fuel : Nat) (s : DevState) (k att : Nat) (err : Option String),
      s.retryCnt < maxRetrys → maxRetrys - s.retryCnt ≤ fuel →
      (runLoop c (fun _ => a) now fuel k err s att).1 = gvErr a ∧
      (runLoop c (fun _ => a) now fuel k err s att).2.2 =
        att + (maxRetrys - s.retryCnt) ∧
      (runLoop c (fun _ => a) now fuel k err s att).2.1.timestamp = s.timestamp ∧
      (runLoop c (fun _ => a) now fuel k err s att).2.1.retryCnt = maxRetrys ∧
      (runLoop c (fun _ => a) now fuel k err s att).2.1.nak =
        s.nak + (if gvSt a = 21 then maxRetrys - s.retryCnt else 0) ∧
      (runLoop c (fun _ => a) now fuel k err s att).2.1.serNo =
        (if fieldOf c = Field.serNo then [] else s.serNo) ∧
      (runLoop c (fun _ => a) now fuel k err s att).2.1.value =
        (if fieldOf c = Field.value then [] else s.value) := by
  intro fuel
  induction fuel with
  | zero => intro s k att err h1 h2; omega
  | succ n ih =>
    intro s k att err h1 h2
    rw [runLoop_step c _ now n k err s att h1]
    simp only [hrej, Bool.false_eq_true, if_false]
    by_cases h21 : gvSt a = 21
    · simp only [h21, if_true]
      by_cases hend : s.retryCnt + 1 < maxRetrys
      · have ihh := ih
          (setField { s with sent := s.sent + gvDS a,
                             received := s.received + gvDR a,
                             nak := s.nak + 1, retryCnt := s.retryCnt + 1 }
            (fieldOf c) []) (k + 1) (att + 1) (gvErr a)
          (by simpa using hend) (by simp; omega)
        simp only [setField_retryCnt, setField_sent, setField_received, setField_nak,
          setField_timestamp, setField_serNo, setField_value] at ihh
        obtain ⟨e1, e2, e3, e4, e5, e6, e7⟩ := ihh
        refine ⟨e1, ?_, ?_, e4, ?_, ?_, ?_⟩
        · rw [e2]; omega
        · rw [e3]
        · rw [e5]; simp [h21]; omega
        · rw [e6]; split_ifs <;> simp_all
        · rw [e7]; split_ifs <;> simp_all
      · have hstk : ¬ (setField { s with sent := s.sent + gvDS a, received := s.received + gvDR a, nak := s.nak + 1, retryCnt := s.retryCnt + 1 } (fieldOf c) []).retryCnt < maxRetrys := by simp; omega
        rw [runLoop_stuck _ _ _ _ _ _ _ _ hstk]
        refine ⟨rfl, by simp; omega, by simp, by simp; omega, by simp [h21]; omega, ?_, ?_⟩
        · simp
        · simp
    · simp only [h21, if_false]
      by_cases hend : s.retryCnt + 1 < maxRetrys
      · have ihh := ih
          (setField { s with sent := s.sent + gvDS a,
                             received := s.received + gvDR a,
                             retryCnt := s.retryCnt + 1 }
            (fieldOf c) []) (k + 1) (att + 1) (gvErr a)
          (by simpa using hend) (by simp; omega)
        simp only [setField_retryCnt, setField_sent, setField_received, setField_nak,
          setField_timestamp, setField_serNo, setField_value] at ihh
        obtain ⟨e1, e2, e3, e4, e5, e6, e7⟩ := ihh
        refine ⟨e1, ?_, ?_, e4, ?_, ?_, ?_⟩
        · rw [e2]; omega
        · rw [e3]
        · rw [e5]; simp [h21]
        · rw [e6]; split_ifs <;> simp_all
        · rw [e7]; split_ifs <;> simp_all
      · have hstk : ¬ (setField { s with sent := s.sent + gvDS a, received := s.received + gvDR a, retryCnt := s.retryCnt + 1 } (fieldOf c) []).retryCnt < maxRetrys := by simp; omega
        rw [runLoop_stuck _ _ _ _ _ _ _ _ hstk]
        refine ⟨rfl, by simp; omega, by simp, by simp; omega, by simp [h21], ?_, ?_⟩
        · simp
        · simp

@[simp] lemma gvSt_nak : gvSt nakAttempt = 21 := rfl

@[simp] lemma gvErr_nak : gvErr nakAttempt = none := rfl

@[simp] lemma gvDS_nak : gvDS nakAttempt = 1 := rfl

@[simp] lemma gvDR_nak : gvDR nakAttempt = 1 := rfl

@[simp] lemma gvSt_ack : gvSt ackAttempt = 6 := rfl

@[simp] lemma gvErr_ack : gvErr ackAttempt = none := rfl

@[simp] lemma gvDS_ack : gvDS ackAttempt = 1 := rfl

@[simp] lemma gvDR_ack : gvDR ackAttempt = 1 := rfl

@[simp] lemma gvSt_bad : gvSt badAttempt = 0 := rfl

@[simp] lemma gvErr_bad : gvErr badAttempt = some "BCC verification failed" := rfl

@[simp] lemma ReadStrPort_st (st : Nat) : ReadStrPort [st, st] = Except.ok (st, []) := by
  have h : Nat.xor 0 st = st := Nat.zero_xor st
  simp [ReadStrPort, bccOf, h]

@[simp] lemma gvSt_st (st : Nat) : gvSt (stAttempt st) = Int.ofNat st := by
  simp [gvSt, stAttempt]

@[simp] lemma gvErr_st (st : Nat) : gvErr (stAttempt st) = none := by
  simp [gvErr, stAttempt]

lemma accept_mea_nak : accept Cmd.mea (gvErr nakAttempt) (gvSt nakAttempt) = false := rfl

lemma accept_mea_bad : accept Cmd.mea (gvErr badAttempt) (gvSt badAttempt) = false := rfl

lemma accept_sn_bad : accept Cmd.sn (gvErr badAttempt) (gvSt badAttempt) = false := rfl

lemma accept_mea_st {st : Nat} (h : st ≠ 6) :
    accept Cmd.mea (gvErr (stAttempt st)) (gvSt (stAttempt st)) = false := by
  simp [accept]
  omega

lemma accept_sn_st (st : Nat) :
    accept Cmd.sn (gvErr (stAttempt st)) (gvSt (stAttempt st)) = true := by
  simp [accept]

lemma runLoop_nakThenAck (now N : Nat) :
    ∀ (m fuel : Nat) (s : DevState) (k att : Nat) (err : Option String),
      k + m + 1 = N → s.retryCnt + m < maxRetrys → m + 1 ≤ fuel →
      runLoop Cmd.mea (nakThenAck N) now fuel k err s att =
        (none,
         { s with value := [], timestamp := some now, nak := s.nak + m,
                  retryCnt := s.retryCnt + m, sent := s.sent + m + 1,
                  received := s.received + m + 1 },
         att + m + 1) := by
  intro m
  induction m with
  | zero =>
    intro fuel s k att err hk hr hf
    obtain ⟨n, rfl⟩ : ∃ n, fuel = n + 1 := ⟨fuel - 1, by omega⟩
    have hk2 : nakThenAck N k = ackAttempt := by
      simp only [nakThenAck, if_neg (by omega : ¬ k + 1 < N)]
    rw [runLoop_step Cmd.mea _ now n k err s att (by omega)]
    simp [hk2, accept, onSuccess, fieldOf, setField]
  | succ m ih =>
    intro fuel s k att err hk hr hf
    obtain ⟨n, rfl⟩ : ∃ n, fuel = n + 1 := ⟨fuel - 1, by omega⟩
    have hk2 : nakThenAck N k = nakAttempt := by
      simp only [nakThenAck, if_pos (by omega : k + 1 < N)]
    rw [runLoop_step Cmd.mea _ now n k err s att (by omega)]
    rw [hk2]
    simp only [gvSt_nak, gvErr_nak, gvDS_nak, gvDR_nak]
    rw [ih n
      (setField { s with sent := s.sent + 1, received := s.received + 1, nak := s.nak + 1, retryCnt := s.retryCnt + 1 } (fieldOf Cmd.mea) [])
      (k + 1) (att + 1) none (by omega) (by simp; omega) (by omega)]
    simp [accept, setField, fieldOf, Prod.mk.injEq, DevState.mk.injEq]
    omega

lemma accept_mea_ack : accept Cmd.mea (gvErr ackAttempt) (gvSt ackAttempt) = true := rfl

lemma runLoop_accept_first (c : Cmd) (o : Nat → Attempt) (now : Nat)
    (fuel k att : Nat) (err : Option String) (s : DevState)
    (h1 : s.retryCnt < maxRetrys) (hf : 1 ≤ fuel)
    (hacc : accept c (gvErr (o k)) (gvSt (o k)) = true) :
    runLoop c o now fuel k err s att =
      (gvErr (o k),
       onSuccess c
         (setField { s with sent := s.sent + gvDS (o k),
                            received := s.received + gvDR (o k) } (fieldOf c) []) now,
       att + 1) := by
  obtain ⟨n, rfl⟩ : ∃ n, fuel = n + 1 := ⟨fuel - 1, by omega⟩
  rw [runLoop_step c o now n k err s att h1, if_pos hacc]

lemma runScheduler_succ (ns : Int) (fuel : Nat) (m : Int) :
    runScheduler ns (fuel + 1) m =
      if mainLoopCond ns m then runScheduler ns fuel (scanDecrement m) else some m := rfl

lemma runScheduler_zero : ∀ (fuel : Nat) (m : Int), runScheduler 0 fuel m = none := by
  intro fuel
  induction fuel with
  | zero => intro m; rfl
  | succ n ih => intro m; simp [runScheduler, mainLoopCond, ih]

lemma runScheduler_bounded :
    ∀ (mN : Nat) (ns : Int), ns ≠ 0 → runScheduler ns (mN + 1) (mN : Int) = some 0 := by
  intro mN
  induction mN with
  | zero =>
    intro ns h
    simp [runScheduler, mainLoopCond, h]
  | succ j ih =>
    intro ns h
    have hp : (0 : Int) < ((j + 1 : Nat) : Int) := by exact_mod_cast Nat.succ_pos j
    have hd : scanDecrement ((j + 1 : Nat) : Int) = (j : Int) := by
      unfold scanDecrement
      rw [if_pos hp]
      push_cast
      ring
    have hc : mainLoopCond ns ((j + 1 : Nat) : Int) = true := by
      simp [mainLoopCond]
    calc runScheduler ns (j + 1 + 1) ((j + 1 : Nat) : Int)
        = runScheduler ns (j + 1) (scanDecrement ((j + 1 : Nat) : Int)) := by
          rw [runScheduler_succ, if_pos hc]
      _ = some 0 := by rw [hd]; exact ih ns h

lemma addr_mod_lor : ∀ a : Nat, a < 128 → (a + 0x80) % 256 = a ||| 0x80 := by decide

/-! Claim theorems. -/

/-- C1: the claim states that decodeResponse returns the leading status byte
together with the payload text between the status byte and the ETX marker,
filtered to printable characters, and that decoding a correct response
derived from encodeRequest round-trips the command payload.  The code does
not: ReadStrPort returns the string literal "" instead of the buffer
contents, so every successful decode carries the empty payload.  On the
correctly framed response respSN embedding the payload "SN ?", the decode
yields payload [] even though the claimed result — the printable filter of
the embedded payload — is the non-empty "SN ?" itself. -/
theorem c1_payload_dropped :
    decodeResponse respSN = Except.ok (6, []) ∧
    getValuePost [83, 78, 32, 63] = [83, 78, 32, 63] ∧
    ([83, 78, 32, 63] : List Nat) ≠ [] := ⟨rfl, rfl, by decide⟩

/-- C2 counterexample: the retry counter is not counted from zero for the
measurement command.  After getSerialNumber exhausts all 25 retries on
malformed responses, getMeasurement — facing a transport that would answer
with a valid ACK on the very first attempt (N = 1 ≤ maxRetrys) — performs
zero query attempts, never succeeds, and leaves the timestamp at its old
value. -/
theorem c2_counterexample :
    (getMeasurement (nakThenAck 1) 99 ((getSerialNumber (fun _ => badAttempt) oldState).2.1)).2.2 = 0 ∧
    (getMeasurement (nakThenAck 1) 99 ((getSerialNumber (fun _ => badAttempt) oldState).2.1)).2.1.timestamp = some 7 ∧
    (getMeasurement (nakThenAck 1) 99 ((getSerialNumber (fun _ => badAttempt) oldState).2.1)).1 = none := by
  decide

/-- C2 amended: the serial-number loop resets the shared retry counter and
performs at most maxRetrys attempts; the measurement loop resumes from the
counter value the serial-number loop left behind, performing at most
maxRetrys - retryCnt attempts; and when the counter starts at zero, a run of
N-1 NAK responses followed by an ACK makes the measurement command succeed
on attempt N with the nak counter increased by exactly N-1. -/
theorem c2_amended :
    (∀ (o : Nat → Attempt) (s : DevState), (getSerialNumber o s).2.2 ≤ maxRetrys) ∧
    (∀ (o : Nat → Attempt) (now : Nat) (s : DevState),
      (getMeasurement o now s).2.2 ≤ maxRetrys - s.retryCnt) ∧
    (∀ (N now : Nat) (s : DevState), 1 ≤ N → N ≤ maxRetrys → s.retryCnt = 0 →
      (getMeasurement (nakThenAck N) now s).1 = none ∧
      (getMeasurement (nakThenAck N) now s).2.2 = N ∧
      (getMeasurement (nakThenAck N) now s).2.1.nak = s.nak + (N - 1) ∧
      (getMeasurement (nakThenAck N) now s).2.1.timestamp = some now) := by
  refine ⟨?_, ?_, ?_⟩
  · intro o s
    simpa [getSerialNumber] using
      runLoop_att_le Cmd.sn o 0 maxRetrys 0 none { s with serNo := [], retryCnt := 0 } 0
  · intro o now s
    simpa [getMeasurement] using runLoop_att_le Cmd.mea o now maxRetrys 0 none s 0
  · intro N now s h1 h2 h0
    have h := runLoop_nakThenAck now N (N - 1) maxRetrys s 0 0 none
      (by omega) (by omega) (by omega)
    unfold getMeasurement
    rw [h]
    exact ⟨rfl, by show 0 + (N - 1) + 1 = N; omega, rfl, rfl⟩

/-- C2 witness: with a fresh state and a schedule of two NAKs followed by
ACK, the measurement command succeeds on attempt 3, the nak counter rises by
2, and the timestamp is stamped. -/
theorem c2_witness :
    (getMeasurement (nakThenAck 3) 5 initState).1 = none ∧
    (getMeasurement (nakThenAck 3) 5 initState).2.2 = 3 ∧
    (getMeasurement (nakThenAck 3) 5 initState).2.1.nak = initState.nak + 2 ∧
    (getMeasurement (nakThenAck 3) 5 initState).2.1.timestamp = some 5 :=
  c2_amended.2.2 3 5 initState (by decide) (by decide) rfl

/-- C3 counterexample: an error-free NAK response to the serial-number
command is accepted immediately — one attempt, err nil, nak counter not
incremented — because the serial-number success test portStatus >= 0 is
satisfied by NAK = 21; the claim says every command kind retries on NAK and
increments the nak counter. -/
theorem c3_counterexample :
    (getSerialNumber (fun _ => nakAttempt) initState).1 = none ∧
    (getSerialNumber (fun _ => nakAttempt) initState).2.2 = 1 ∧
    (getSerialNumber (fun _ => nakAttempt) initState).2.1.nak = 0 := by decide

/-- C3 amended: only the measurement loop treats an error-free NAK status as
retry-worthy, incrementing the device's nak counter on every such attempt
until retries are exhausted; the serial-number loop accepts any error-free
response — NAK included — on the spot, leaving the nak counter unchanged
(its NAK branch is reachable only when getValue returned an error, and then
portStatus is 0, never 21). -/
theorem c3_amended :
    (∀ (now : Nat) (s : DevState), s.retryCnt = 0 →
      (getMeasurement (fun _ => nakAttempt) now s).2.1.nak = s.nak + maxRetrys ∧
      (getMeasurement (fun _ => nakAttempt) now s).2.2 = maxRetrys) ∧
    (∀ (o : Nat → Attempt) (s : DevState) (st : Nat), o 0 = stAttempt st →
      (getSerialNumber o s).1 = none ∧
      (getSerialNumber o s).2.2 = 1 ∧
      (getSerialNumber o s).2.1.nak = s.nak) := by
  constructor
  · intro now s h0
    have h := runLoop_reject_const Cmd.mea nakAttempt now accept_mea_nak
      maxRetrys s 0 0 none (by rw [h0]; decide) (by rw [h0]; decide)
    obtain ⟨e1, e2, e3, e4, e5, e6, e7⟩ := h
    unfold getMeasurement
    refine ⟨?_, ?_⟩
    · rw [e5, h0]; simp
    · rw [e2, h0]; omega
  · intro o s st ho
    have hacc : accept Cmd.sn (gvErr (o 0)) (gvSt (o 0)) = true := by
      rw [ho]; exact accept_sn_st st
    unfold getSerialNumber
    rw [runLoop_accept_first Cmd.sn o 0 maxRetrys 0 0 none _ (by simp [maxRetrys]) (by decide) hacc]
    refine ⟨?_, rfl, ?_⟩
    · show gvErr (o 0) = none
      rw [ho]
      exact gvErr_st st
    · simp [onSuccess]

/-- C3 witness: concrete instances of both halves of the amendment. -/
theorem c3_witness :
    (getMeasurement (fun _ => nakAttempt) 3 initState).2.1.nak = initState.nak + maxRetrys ∧
    (getSerialNumber (fun _ => nakAttempt) initState).2.1.nak = initState.nak :=
  ⟨(c3_amended.1 3 initState rfl).1,
   (c3_amended.2 (fun _ => nakAttempt) initState 21 rfl).2.2⟩

/-- C4 counterexample: maxRetrys consecutive error-free NAK responses
exhaust the measurement retry loop, yet the function returns err = nil, not
the non-nil error the claim requires. -/
theorem c4_counterexample :
    (getMeasurement (fun _ => nakAttempt) 0 initState).2.2 = maxRetrys ∧
    (getMeasurement (fun _ => nakAttempt) 0 initState).2.1.timestamp = none ∧
    (getMeasurement (fun _ => nakAttempt) 0 initState).1 = none := by decide

/-- C4 amended: an exhausted retry loop returns whatever error value the
last getValue call produced: a transport/decode failure on the final attempt
surfaces as a non-nil error (for both command kinds), but a final attempt
that decoded an error-free non-success status — e.g. maxRetrys consecutive
NAKs to a measurement command — returns nil despite exhaustion. -/
theorem c4_amended : ∀ (now : Nat) (s : DevState), s.retryCnt = 0 →
    (getMeasurement (fun _ => badAttempt) now s).1 = some "BCC verification failed" ∧
    (getSerialNumber (fun _ => badAttempt) s).1 = some "BCC verification failed" ∧
    (getMeasurement (fun _ => nakAttempt) now s).1 = none := by
  intro now s h0
  refine ⟨?_, ?_, ?_⟩
  · have e := (runLoop_reject_const Cmd.mea badAttempt now accept_mea_bad
      maxRetrys s 0 0 none (by rw [h0]; decide) (by rw [h0]; decide)).1
    simpa [getMeasurement] using e
  · have e := (runLoop_reject_const Cmd.sn badAttempt 0 accept_sn_bad
      maxRetrys { s with serNo := [], retryCnt := 0 } 0 0 none
      (by simp [maxRetrys]) (by simp)).1
    simpa [getSerialNumber] using e
  · have e := (runLoop_reject_const Cmd.mea nakAttempt now accept_mea_nak
      maxRetrys s 0 0 none (by rw [h0]; decide) (by rw [h0]; decide)).1
    simpa [getMeasurement] using e

/-- C4 witness: both exhaustion outcomes at a concrete state. -/
theorem c4_witness :
    (getMeasurement (fun _ => badAttempt) 0 initState).1 = some "BCC verification failed" ∧
    (getMeasurement (fun _ => nakAttempt) 0 initState).1 = none :=
  ⟨(c4_amended 0 initState rfl).1, (c4_amended 0 initState rfl).2.2⟩

/-- C5 counterexample: with a previously stored serial number "OLD", an
attempt whose 25 retries all fail on malformed frames still clears the
stored serial-number string to empty — the reading fields do not hold their
prior values after the exhausted attempt. -/
theorem c5_counterexample :
    oldState.serNo = [79, 76, 68] ∧
    (getSerialNumber (fun _ => badAttempt) oldState).2.2 = maxRetrys ∧
    (getSerialNumber (fun _ => badAttempt) oldState).1 = some "BCC verification failed" ∧
    (getSerialNumber (fun _ => badAttempt) oldState).2.1.serNo = [] := by decide

/-- C5 amended: after a command's retries are exhausted the timestamp is
unchanged and the other command's string field is untouched, but the
exhausted command's own string field does not keep its prior value: it is
cleared to the empty string (getSerialNumber clears it before the first
attempt, and every getValue attempt clears it again). -/
theorem c5_amended : ∀ (now : Nat) (s : DevState), s.retryCnt = 0 →
    ((getSerialNumber (fun _ => badAttempt) s).2.1.timestamp = s.timestamp ∧
     (getSerialNumber (fun _ => badAttempt) s).2.1.serNo = [] ∧
     (getSerialNumber (fun _ => badAttempt) s).2.1.value = s.value) ∧
    ((getMeasurement (fun _ => nakAttempt) now s).2.1.timestamp = s.timestamp ∧
     (getMeasurement (fun _ => nakAttempt) now s).2.1.value = [] ∧
     (getMeasurement (fun _ => nakAttempt) now s).2.1.serNo = s.serNo) := by
  intro now s h0
  constructor
  · have h := runLoop_reject_const Cmd.sn badAttempt 0 accept_sn_bad
      maxRetrys { s with serNo := [], retryCnt := 0 } 0 0 none
      (by simp [maxRetrys]) (by simp)
    obtain ⟨e1, e2, e3, e4, e5, e6, e7⟩ := h
    unfold getSerialNumber
    refine ⟨?_, ?_, ?_⟩
    · rw [e3]
    · rw [e6]; simp [fieldOf]
    · rw [e7]; simp [fieldOf]
  · have h := runLoop_reject_const Cmd.mea nakAttempt now accept_mea_nak
      maxRetrys s 0 0 none (by rw [h0]; decide) (by rw [h0]; decide)
    obtain ⟨e1, e2, e3, e4, e5, e6, e7⟩ := h
    unfold getMeasurement
    refine ⟨?_, ?_, ?_⟩
    · rw [e3]
    · rw [e7]; simp [fieldOf]
    · rw [e6]; simp [fieldOf]

/-- C5 witness: the amended behaviour at the concrete stored-reading
state. -/
theorem c5_witness :
    (getSerialNumber (fun _ => badAttempt) oldState).2.1.timestamp = oldState.timestamp ∧
    (getMeasurement (fun _ => nakAttempt) 3 oldState).2.1.value = [] :=
  ⟨(c5_amended 3 oldState rfl).1.1, (c5_amended 3 oldState rfl).2.2.1⟩

/-- C6 counterexample: with numScans = 1 the loop condition
numScans == 0 || numScansMain > 0 is already false once the counter reaches
0, and the scan loop exits after its single pass — main returns and the
process terminates by itself, not only via an external signal. -/
theorem c6_counterexample :
    mainLoopCond 1 0 = false ∧ runScheduler 1 2 1 = some 0 := by decide

/-- C6 amended: with a bounded scan count k > 0 the main loop performs k
scans and then exits — the process self-terminates; only the unbounded
configuration numScans = 0 keeps the loop running forever (termination then
comes only from an external signal). -/
theorem c6_amended :
    (∀ k : Nat, 0 < k → runScheduler (k : Int) (k + 1) (k : Int) = some 0) ∧
    (∀ (fuel : Nat) (m : Int), runScheduler 0 fuel m = none) := by
  constructor
  · intro k hk
    exact runScheduler_bounded k (k : Int) (by exact_mod_cast hk.ne')
  · exact runScheduler_zero

/-- C6 witness: two bounded scans terminate the loop. -/
theorem c6_witness : runScheduler ((2 : Nat) : Int) (2 + 1) ((2 : Nat) : Int) = some 0 :=
  c6_amended.1 2 (by decide)

/-- C7: a zero-byte read fails with the empty-response error; a non-empty
frame decodes successfully exactly when its last byte is the XOR of all
preceding bytes, returning the leading status byte, and fails with the
checksum error otherwise; consequently flipping any single bit of any byte
other than the trailing checksum byte of a checksum-correct frame makes the
decode fail with the checksum error. -/
theorem c7_checksum :
    ReadStrPort [] = Except.error "no data read" ∧
    (∀ (body : List Nat) (last : Nat),
      (bccOf body = last →
        ReadStrPort (body ++ [last]) = Except.ok ((body ++ [last]).headD 0, [])) ∧
      (bccOf body ≠ last →
        ReadStrPort (body ++ [last]) = Except.error "BCC verification failed")) ∧
    (∀ (body : List Nat) (last i j : Nat), i < body.length → bccOf body = last →
      ReadStrPort (body.set i (body.getD i 0 ^^^ 2 ^ j) ++ [last]) =
        Except.error "BCC verification failed") := by
  refine ⟨rfl, ?_, ?_⟩
  · intro body last
    constructor
    · intro h; rw [ReadStrPort_concat, if_pos h]
    · intro h; rw [ReadStrPort_concat, if_neg h]
  · intro body last i j hi hb
    have hne : bccOf (body.set i (body.getD i 0 ^^^ 2 ^ j)) ≠ last := by
      rw [bccOf_set body i (2 ^ j) hi, hb]
      exact xor_ne_self (by positivity)
    rw [ReadStrPort_concat, if_neg hne]

/-- C7 witness: a concrete valid frame decodes, and the same frame with bit
0 of its first byte flipped fails the checksum. -/
theorem c7_witness :
    ReadStrPort ([6, 83] ++ [bccOf [6, 83]]) =
      Except.ok (([6, 83] ++ [bccOf [6, 83]]).headD 0, []) ∧
    ReadStrPort ([6, 83].set 0 ([6, 83].getD 0 0 ^^^ 2 ^ 0) ++ [bccOf [6, 83]]) =
      Except.error "BCC verification failed" :=
  ⟨(c7_checksum.2.1 [6, 83] (bccOf [6, 83])).1 rfl,
   c7_checksum.2.2 [6, 83] (bccOf [6, 83]) 0 0 (by decide) rfl⟩

/-- C8: for every command that fits the transmit buffer and every address
0-127, the encoded request frame is exactly the address byte with the
marker bit set (adr + 0x80 = adr OR 0x80 for adr ≤ 127), the command bytes,
the ETX byte, and a checksum byte XORing the command bytes and ETX — the
address byte excluded from the checksum. -/
theorem c8_encode : ∀ (chars : List Nat) (adr : Nat), adr ≤ 127 →
    chars.length + 3 ≤ TXBUFFLEN →
    WriteStrPort chars adr =
      Except.ok ((adr ||| 0x80) :: (chars ++ [ETX, bccOf (chars ++ [ETX])])) := by
  intro chars adr ha hl
  have hl' : chars.length + 3 ≤ 2200 := hl
  simp only [WriteStrPort, TXBUFFLEN]
  rw [if_neg (by omega), if_neg (by omega), if_neg (by omega)]
  rw [addr_mod_lor adr (by omega)]

/-- C8 witness: the frame for command "SN ?" at address 1. -/
theorem c8_witness :
    WriteStrPort [83, 78, 32, 63] 1 =
      Except.ok ((1 ||| 0x80) :: ([83, 78, 32, 63] ++ [ETX, bccOf ([83, 78, 32, 63] ++ [ETX])])) :=
  c8_encode [83, 78, 32, 63] 1 (by decide) (by decide)

/-- C9: different success predicates per command kind.  For any error-free
response with status byte st: the serial-number loop accepts it immediately
(the test portStatus >= 0 holds for every byte) — one attempt, err nil;
the measurement loop accepts exactly ACK: on any non-ACK status it never
accepts, exhausting all maxRetrys attempts without setting the timestamp,
while an ACK response is accepted on the first attempt and stamps the
timestamp. -/
theorem c9_predicates : ∀ (st now : Nat) (s : DevState), s.retryCnt = 0 → st ≠ ACK →
    ((getSerialNumber (fun _ => stAttempt st) s).1 = none ∧
     (getSerialNumber (fun _ => stAttempt st) s).2.2 = 1) ∧
    ((getMeasurement (fun _ => stAttempt st) now s).2.2 = maxRetrys ∧
     (getMeasurement (fun _ => stAttempt st) now s).2.1.timestamp = s.timestamp) ∧
    ((getMeasurement (fun _ => stAttempt ACK) now s).2.2 = 1 ∧
     (getMeasurement (fun _ => stAttempt ACK) now s).2.1.timestamp = some now) := by
  intro st now s h0 hst
  refine ⟨?_, ?_, ?_⟩
  · unfold getSerialNumber
    rw [runLoop_accept_first Cmd.sn _ 0 maxRetrys 0 0 none _
      (by simp [maxRetrys]) (by decide) (accept_sn_st st)]
    exact ⟨gvErr_st st, rfl⟩
  · have h := runLoop_reject_const Cmd.mea (stAttempt st) now (accept_mea_st hst)
      maxRetrys s 0 0 none (by rw [h0]; decide) (by rw [h0]; decide)
    obtain ⟨e1, e2, e3, e4, e5, e6, e7⟩ := h
    unfold getMeasurement
    exact ⟨by rw [e2, h0]; omega, e3⟩
  · unfold getMeasurement
    rw [runLoop_accept_first Cmd.mea _ now maxRetrys 0 0 none _
      (by rw [h0]; decide) (by decide) accept_mea_ack]
    exact ⟨rfl, rfl⟩

/-- C9 witness: predicate asymmetry at status NAK = 21 and at ACK. -/
theorem c9_witness :
    (getSerialNumber (fun _ => stAttempt 21) initState).2.2 = 1 ∧
    (getMeasurement (fun _ => stAttempt 21) 4 initState).2.2 = maxRetrys ∧
    (getMeasurement (fun _ => stAttempt ACK) 4 initState).2.1.timestamp = some 4 :=
  ⟨(c9_predicates 21 4 initState rfl (by decide)).1.2,
   (c9_predicates 21 4 initState rfl (by decide)).2.1.1,
   (c9_predicates 21 4 initState rfl (by decide)).2.2.2⟩

/-- C10: getValue indexes msgSent/msgReceived by the raw bus-address byte
into the 32-element arrays, so any attempt with a successful write at a
configured address ≥ MAXNUMADR = 32 runs the increment out of bounds (a Go
runtime panic, modelled as none), even though extractAdresses accepts any
decimal value 0-255 (e.g. 40 and 255, while 256 is rejected) and stores at
most MAXNUMADR addresses; the nak counter, by contrast, is indexed by the
scan-slot cursor, which is always below MAXNUMADR and therefore in
bounds. -/
theorem c10_indexing :
    (∀ (cs : Counters) (adr : Nat), cs.msgSent.length = MAXNUMADR → MAXNUMADR ≤ adr →
      (∀ raw, getValueCounters cs adr (Attempt.bytes raw) = none) ∧
      (∀ msg, getValueCounters cs adr (Attempt.readFail msg) = none)) ∧
    (extractAdresses "40, 255" = [40, 255] ∧ MAXNUMADR ≤ 40 ∧ extractAdresses "256" = []) ∧
    (∀ astr, (extractAdresses astr).length ≤ MAXNUMADR) ∧
    (∀ (cs : Counters) (slot : Nat), cs.msgNAK.length = MAXNUMADR → slot < MAXNUMADR →
      nakIncrement cs slot ≠ none) := by
  refine ⟨?_, by decide, ?_, ?_⟩
  · intro cs adr hlen hadr
    have hn : incAt cs.msgSent adr = none := by
      unfold incAt
      rw [if_neg (by omega)]
    exact ⟨fun raw => by simp [getValueCounters, hn], fun msg => by simp [getValueCounters, hn]⟩
  · intro astr
    unfold extractAdresses
    refine le_trans (List.length_filterMap_le _ _) ?_
    simp [List.length_take]
  · intro cs slot hlen hslot
    have hs : incAt cs.msgNAK slot = some (cs.msgNAK.set slot (cs.msgNAK.getD slot 0 + 1)) := by
      unfold incAt
      rw [if_pos (by omega)]
    simp [nakIncrement, hs]

/-- C10 witness: address 40 overruns the counter arrays on a successful
send, while the slot-indexed nak increment stays in bounds. -/
theorem c10_witness :
    getValueCounters csInit 40 (Attempt.bytes [6, 6]) = none ∧
    nakIncrement csInit 0 ≠ none :=
  ⟨(c10_indexing.1 csInit 40 (by decide) (by decide)).1 [6, 6],
   c10_indexing.2.2.2 csInit 0 (by decide) (by decide)⟩

end Tempreg
